import Mathlib

/-!
Shallow embedding of `pkg/workloads/cortex/serve/start_uvicorn.py`.

The source file is the serving-process bootstrap orchestrator of the
cortex repository.  Its observable behaviour is modelled as a pure
function from an `Oracle` (the process environment plus the results of
the external collaborators: the retrieved API spec, the predictor-type
classification of that spec, the parsed logging configuration, and the
success/failure of each backing-server configuration call) to a trace of
side effects (`List Effect`) together with an `Except PyErr Unit`
outcome.  Python exceptions (`KeyError` from `os.environ[...]` and dict
indexing, `ValueError` from `int(...)`, and the backing-server call
failure) are modelled as `Except.error`.
-/

namespace StartUvicorn

/-- Python exception classes that the script can raise, collapsed to the
distinctions the orchestrator's behaviour depends on. -/
inductive PyErr where
  | keyError
  | valueError
  | backingServerConfigError
  deriving DecidableEq, Repr

/-- The closed set of predictor kinds
(`cortex.lib.type`): Python, TensorFlow, TensorFlowNeuron, ONNX. -/
inductive PredictorType where
  | Python
  | TensorFlow
  | TensorFlowNeuron
  | ONNX
  deriving DecidableEq, Repr

/-- The `models` section of the retrieved API spec
(`api_spec["predictor"]["models"]`).  A field of value `none` models a
key that is absent from the dict (so indexing raises `KeyError`);
`some none` models a key that is present with value `null`/`None`;
`some (some n)` a key present with a non-null value. -/
structure ModelsSection where
  cache_size : Option (Option Nat)
  disk_cache_size : Option (Option Nat)
  deriving DecidableEq, Repr

/-- The `predictor` section of the retrieved API spec. -/
structure PredictorSection where
  models : ModelsSection
  processes_per_replica : Int
  deriving DecidableEq, Repr

/-- The retrieved API spec (`api_spec`), restricted to the fields the
orchestrator reads. -/
structure ApiSpec where
  predictor : PredictorSection
  deriving DecidableEq, Repr

/-- The observable side effects issued by the orchestrator, in program
order.  `writePortTable` is the `json.dump` of `used_ports` into
`/run/used_ports.json`; `startFileSync` is
`FileBasedModelsTreeUpdater(...).start()`; `startTFSLoader` is
`TFSModelLoader(...).start()`; `addModelsConfig` is
`TensorFlowServing(address).add_models_config(models, base_paths,
replace_models)`; `uvicornRun` is the final `uvicorn.run(...)` call
(its `log_config` argument is modelled by the opaque `Nat` identity the
oracle assigned to the parsed yaml document). -/
inductive Effect where
  | waitNeuronRtd
  | writePortTable (path : String) (table : List (String × Bool))
  | makeDirs (path : String)
  | startFileSync (interval : Nat) (api_spec : ApiSpec) (download_dir : String)
  | startTFSLoader (interval : Nat) (api_spec : ApiSpec) (address : String)
      (tfs_model_dir : String) (download_dir : String)
  | addModelsConfig (address : String) (models : List String)
      (base_paths : List String) (replace_models : Bool)
  | uvicornRun (host : String) (port : Int) (workers : Int)
      (limit_concurrency : Int) (backlog : Int) (log_config : Nat)
  deriving DecidableEq, Repr

/-- The inputs of one run: the process environment (`os.environ` /
`os.getenv`), and the outcomes supplied by the external collaborators:
the parsed logging configuration (as an opaque identifier), the spec
returned by `get_spec`, the predictor type that
`predictor_type_from_api_spec` computes for it, and whether the
backing-server configuration call for process index `w` succeeds. -/
structure Oracle where
  env : String → Option String
  logConfig : Nat
  apiSpec : ApiSpec
  predictorType : PredictorType
  tfsCallOk : Nat → Bool

/-! ## Python primitives -/

/-- Python truthiness of an `os.getenv` result: `None` and the empty
string are falsy, any other string is truthy. -/
def pyTruthy : Option String → Bool
  | none => false
  | some s => s ≠ ""

/-- `os.environ[k]`: raises `KeyError` when the variable is absent. -/
def require (env : String → Option String) (k : String) : Except PyErr String :=
  match env k with
  | some v => Except.ok v
  | none => Except.error PyErr.keyError

/-- Leading-whitespace removal on a character list (one side of Python's
`str.strip()`). -/
def stripLeft : List Char → List Char
  | [] => []
  | c :: rest => if c.isWhitespace then stripLeft rest else c :: rest

/-- Python's `str.strip()` on a character list: whitespace removed from
both ends. -/
def pyStripChars (l : List Char) : List Char :=
  ((stripLeft ((stripLeft l).reverse)).reverse)

/-- Python's `str.strip()`. -/
def pyStrip (s : String) : String :=
  String.mk (pyStripChars s.toList)

/-- Split a character list at every comma (Python's `str.split(",")`:
every separator produces a field, empty fields included). -/
def splitCommaChars : List Char → List Char → List (List Char)
  | [], acc => [acc.reverse]
  | c :: rest, acc =>
      if c = ',' then acc.reverse :: splitCommaChars rest []
      else splitCommaChars rest (c :: acc)

/-- Python's `s.split(",")`. -/
def pySplitComma (s : String) : List String :=
  (splitCommaChars s.toList []).map String.mk

/-- Decimal value of a digit list (most significant first). -/
def digitsVal (l : List Char) : Nat :=
  l.foldl (fun a c => a * 10 + (c.toNat - 48)) 0

/-- Python's `int(s)` on a string: surrounding whitespace ignored, an
optional single sign, then a non-empty run of decimal digits; anything
else raises `ValueError` (modelled as `none`).  (Python also accepts
underscore digit grouping, which no value in this code base uses and
which is not modelled.) -/
def pyInt (s : String) : Option Int :=
  match pyStripChars s.toList with
  | [] => none
  | '-' :: rest =>
      if rest ≠ [] ∧ rest.all Char.isDigit then some (-(digitsVal rest : Int)) else none
  | '+' :: rest =>
      if rest ≠ [] ∧ rest.all Char.isDigit then some ((digitsVal rest : Int)) else none
  | cs =>
      if cs.all Char.isDigit then some ((digitsVal cs : Int)) else none

/-- `int(os.environ[k])`: `KeyError` when absent, `ValueError` when the
value does not parse as an integer. -/
def requireInt (env : String → Option String) (k : String) : Except PyErr Int :=
  match require env k with
  | Except.error e => Except.error e
  | Except.ok s =>
      match pyInt s with
      | some n => Except.ok n
      | none => Except.error PyErr.valueError

/-- `os.path.join(a, b)` (POSIX): an absolute second component discards
the first; otherwise a separator is inserted unless already present. -/
def pathJoin (a b : String) : String :=
  if b.startsWith "/" then b
  else if a = "" ∨ a.endsWith "/" then a ++ b
  else a ++ "/" ++ b

/-! ## `load_tensorflow_serving_models` -/

/-- The model names parsed from the `CORTEX_MODELS` environment value:
`os.environ["CORTEX_MODELS"].split(",")` followed by
`[model.strip() for model in models]`. -/
def parseModels (raw : String) : List String :=
  (pySplitComma raw).map pyStrip

/-- The loop body of `load_tensorflow_serving_models`: for each process
index `w` in the given list, connect to
`f"{tf_serving_host}:{tf_base_serving_port+w}"` and issue
`add_models_config(models, base_paths, replace_models=False)`.  A failed
call raises immediately; the effects of the earlier, successful calls
remain and no later index is attempted. -/
def tfsLoadLoop (ok : Nat → Bool) (host : String) (basePort : Int)
    (models base_paths : List String) : List Nat → List Effect × Except PyErr Unit
  | [] => ([], Except.ok ())
  | w :: ws =>
      if ok w then
        let r := tfsLoadLoop ok host basePort models base_paths ws
        (Effect.addModelsConfig (host ++ ":" ++ toString (basePort + (w : Int)))
            models base_paths false :: r.1, r.2)
      else ([], Except.error PyErr.backingServerConfigError)

/-- `load_tensorflow_serving_models()` (source lines 35–57): reads the
model directory, the TFS host (default `"localhost"`) and base port
(default `"9000"`), the comma-separated model list, and the process
count (1 unless `CORTEX_MULTIPLE_TF_SERVERS` is truthy, in which case
`int(os.environ["CORTEX_PROCESSES_PER_REPLICA"])`), then issues one
`add_models_config` call per process index. -/
def load_tensorflow_serving_models (o : Oracle) : List Effect × Except PyErr Unit :=
  match require o.env "CORTEX_MODEL_DIR" with
  | Except.error e => ([], Except.error e)
  | Except.ok model_dir =>
  let tf_serving_host := (o.env "CORTEX_TF_SERVING_HOST").getD "localhost"
  match pyInt ((o.env "CORTEX_TF_BASE_SERVING_PORT").getD "9000") with
  | none => ([], Except.error PyErr.valueError)
  | some tf_base_serving_port =>
  match require o.env "CORTEX_MODELS" with
  | Except.error e => ([], Except.error e)
  | Except.ok raw =>
  let models := parseModels raw
  match
    (if pyTruthy (o.env "CORTEX_MULTIPLE_TF_SERVERS") then
      requireInt o.env "CORTEX_PROCESSES_PER_REPLICA"
    else Except.ok 1) with
  | Except.error e => ([], Except.error e)
  | Except.ok num_processes =>
  let base_paths := models.map (fun name => pathJoin model_dir name)
  tfsLoadLoop o.tfsCallOk tf_serving_host tf_base_serving_port models base_paths
    (List.range num_processes.toNat)

/-! ## `is_model_caching_enabled` -/

/-- Python dict indexing `d[k]` on a field of the models section:
`KeyError` when the key is absent. -/
def dictGet (v : Option (Option Nat)) : Except PyErr (Option Nat) :=
  match v with
  | some x => Except.ok x
  | none => Except.error PyErr.keyError

/-- `is_model_caching_enabled(api_spec)` (source lines 60–64):
`api_spec["predictor"]["models"]["cache_size"] is not None and
api_spec["predictor"]["models"]["disk_cache_size"] is not None`, with
Python's short-circuit `and` (the second lookup is not evaluated when
the first operand is `None`). -/
def is_model_caching_enabled (api_spec : ApiSpec) : Except PyErr Bool :=
  match dictGet api_spec.predictor.models.cache_size with
  | Except.error e => Except.error e
  | Except.ok cs =>
      if cs.isSome then
        match dictGet api_spec.predictor.models.disk_cache_size with
        | Except.error e => Except.error e
        | Except.ok dcs => Except.ok dcs.isSome
      else Except.ok false

/-! ## `main`, split into its sequential phases -/

/-- The neuron-rtd readiness wait (source lines 72–74): performed iff
`CORTEX_ACTIVE_NEURON` is truthy. -/
def neuronPhase (o : Oracle) : List Effect :=
  if pyTruthy (o.env "CORTEX_ACTIVE_NEURON") then [Effect.waitNeuronRtd] else []

/-- The `used_ports` dict built by `main` (source lines 80–83): one
entry `str(base_serving_port + w): False` per `w` in
`range(num_processes)`, in insertion order. -/
def buildUsedPorts (basePort : Int) (numProcesses : Int) : List (String × Bool) :=
  (List.range numProcesses.toNat).map
    (fun (w : Nat) => (toString (basePort + (w : Int)), false))

/-- The port-table block of `main` (source lines 77–85): when
`CORTEX_MULTIPLE_TF_SERVERS` is truthy, parse the base port and the
process count and write the `used_ports` table to
`/run/used_ports.json`; otherwise do nothing. -/
def portTablePhase (o : Oracle) : List Effect × Except PyErr Unit :=
  if pyTruthy (o.env "CORTEX_MULTIPLE_TF_SERVERS") then
    match requireInt o.env "CORTEX_TF_BASE_SERVING_PORT" with
    | Except.error e => ([], Except.error e)
    | Except.ok basePort =>
        match requireInt o.env "CORTEX_PROCESSES_PER_REPLICA" with
        | Except.error e => ([], Except.error e)
        | Except.ok num =>
            ([Effect.writePortTable "/run/used_ports.json" (buildUsedPorts basePort num)],
              Except.ok ())
  else ([], Except.ok ())

/-- The spec-retrieval block of `main` (source lines 88–103): read
`CORTEX_PROVIDER` and `CORTEX_API_SPEC` (required), call `get_spec`
(whose result the oracle supplies), classify the predictor type, compute
`multiple_processes`, evaluate `is_model_caching_enabled`, and read the
required `CORTEX_MODEL_DIR`.  Returns
`(predictor_type, multiple_processes, caching_enabled, model_dir)`. -/
def specPhase (o : Oracle) : Except PyErr (PredictorType × Bool × Bool × String) := do
  let _provider ← require o.env "CORTEX_PROVIDER"
  let _spec_path ← require o.env "CORTEX_API_SPEC"
  let api_spec := o.apiSpec
  let predictor_type := o.predictorType
  let multiple_processes := decide (api_spec.predictor.processes_per_replica > 1)
  let caching_enabled ← is_model_caching_enabled api_spec
  let model_dir ← require o.env "CORTEX_MODEL_DIR"
  return (predictor_type, multiple_processes, caching_enabled, model_dir)

/-- `predictor_type not in [TensorFlowPredictorType,
TensorFlowNeuronPredictorType]`, negated. -/
def inTFFamily : PredictorType → Bool
  | PredictorType.TensorFlow => true
  | PredictorType.TensorFlowNeuron => true
  | _ => false

/-- The dispatch block of `main` (source lines 105–131): create the two
cron scratch directories when caching is disabled, then start exactly
one of the side-reloading mechanisms according to the sequential
conditionals of the source. -/
def dispatchPhase (o : Oracle) (predictor_type : PredictorType)
    (caching_enabled : Bool) (model_dir : String) : List Effect × Except PyErr Unit :=
  let cronDirs : List Effect :=
    if !caching_enabled then [Effect.makeDirs "/run/cron", Effect.makeDirs "/tmp/cron"]
    else []
  if !caching_enabled && !inTFFamily predictor_type then
    (cronDirs ++ [Effect.startFileSync 10 o.apiSpec model_dir], Except.ok ())
  else if !caching_enabled && (predictor_type = PredictorType.TensorFlow : Bool) then
    let tf_serving_port := (o.env "CORTEX_TF_BASE_SERVING_PORT").getD "9000"
    let tf_serving_host := (o.env "CORTEX_TF_SERVING_HOST").getD "localhost"
    (cronDirs ++
      [Effect.startTFSLoader 10 o.apiSpec (tf_serving_host ++ ":" ++ tf_serving_port)
        model_dir model_dir], Except.ok ())
  else if !caching_enabled && (predictor_type = PredictorType.TensorFlowNeuron : Bool) then
    let r := load_tensorflow_serving_models o
    (cronDirs ++ r.1, r.2)
  else (cronDirs, Except.ok ())

/-- The final `uvicorn.run` call of `main` (source lines 134–145): its
keyword arguments are evaluated left to right, each parsed from its
environment variable, before the run effect is issued with
`host="0.0.0.0"` and the loaded logging configuration. -/
def launchPhase (o : Oracle) : List Effect × Except PyErr Unit :=
  match requireInt o.env "CORTEX_SERVING_PORT" with
  | Except.error e => ([], Except.error e)
  | Except.ok port =>
  match requireInt o.env "CORTEX_PROCESSES_PER_REPLICA" with
  | Except.error e => ([], Except.error e)
  | Except.ok workers =>
  match requireInt o.env "CORTEX_MAX_PROCESS_CONCURRENCY" with
  | Except.error e => ([], Except.error e)
  | Except.ok limit_concurrency =>
  match requireInt o.env "CORTEX_SO_MAX_CONN" with
  | Except.error e => ([], Except.error e)
  | Except.ok backlog =>
      ([Effect.uvicornRun "0.0.0.0" port workers limit_concurrency backlog o.logConfig],
        Except.ok ())

/-- `main()` (source lines 67–145): the phases in program order.  An
exception raised in any phase propagates immediately: the effects
already issued remain and no later phase runs. -/
def mainRun (o : Oracle) : List Effect × Except PyErr Unit :=
  let tr0 := neuronPhase o
  match portTablePhase o with
  | (tr1, Except.error e) => (tr0 ++ tr1, Except.error e)
  | (tr1, Except.ok ()) =>
      match specPhase o with
      | Except.error e => (tr0 ++ tr1, Except.error e)
      | Except.ok (predictor_type, _multiple_processes, caching_enabled, model_dir) =>
          match dispatchPhase o predictor_type caching_enabled model_dir with
          | (tr2, Except.error e) => (tr0 ++ tr1 ++ tr2, Except.error e)
          | (tr2, Except.ok ()) =>
              let r := launchPhase o
              (tr0 ++ tr1 ++ tr2 ++ r.1, r.2)

/-! ## Observers on traces -/

/-- Effects that realize a startup strategy: starting one of the two
daemons, or issuing a direct backing-server configuration call. -/
def isDispatch : Effect → Bool
  | Effect.startFileSync _ _ _ => true
  | Effect.startTFSLoader _ _ _ _ _ => true
  | Effect.addModelsConfig _ _ _ _ => true
  | _ => false

/-- The strategy-realizing effects of a trace, in order. -/
def dispatched (tr : List Effect) : List Effect := tr.filter isDispatch

/-- Is this effect the runtime launch call? -/
def isLaunch : Effect → Bool
  | Effect.uvicornRun _ _ _ _ _ _ => true
  | _ => false

/-- Is this effect a direct backing-server configuration call? -/
def isAddModels : Effect → Bool
  | Effect.addModelsConfig _ _ _ _ => true
  | _ => false

/-- Is this effect a write of the persisted port table? -/
def isPortWrite : Effect → Bool
  | Effect.writePortTable _ _ => true
  | _ => false

/-- The content of the port-table file after a trace has run, starting
from an arbitrary initial content: each `writePortTable` to the file
replaces the whole content (the file is opened with mode `w+`, which
truncates). -/
def finalPortTable (init : Option (List (String × Bool))) :
    List Effect → Option (List (String × Bool))
  | [] => init
  | Effect.writePortTable _ t :: tr => finalPortTable (some t) tr
  | _ :: tr => finalPortTable init tr

/-! ## The spec's classifier (§4.3), stated from the spec's words -/

/-- The spec's closed set of startup strategies. -/
inductive StartupStrategy where
  | FileSync
  | BackingServerSync
  | BackingServerDirectLoad
  | NoStrategy
  deriving DecidableEq, Repr

/-- Modelled from the spec: the §4.3 decision table
`(CachingMode, PredictorKind) → StartupStrategy` — caching enabled
always yields `None`; otherwise Python and ONNX map to `FileSync`,
TensorFlow to `BackingServerSync`, TensorFlowNeuron to
`BackingServerDirectLoad`. -/
def classify : Bool → PredictorType → StartupStrategy
  | true, _ => StartupStrategy.NoStrategy
  | false, PredictorType.Python => StartupStrategy.FileSync
  | false, PredictorType.ONNX => StartupStrategy.FileSync
  | false, PredictorType.TensorFlow => StartupStrategy.BackingServerSync
  | false, PredictorType.TensorFlowNeuron => StartupStrategy.BackingServerDirectLoad

/-- A trace realizes a startup strategy when its strategy-realizing
effects are exactly the ones that strategy prescribes: none, exactly one
file-sync daemon start, exactly one backing-server sync daemon start, or
exactly the per-process direct-load calls (one per index, differing only
in the port). -/
def realizes (tr : List Effect) : StartupStrategy → Prop
  | StartupStrategy.NoStrategy => dispatched tr = []
  | StartupStrategy.FileSync =>
      ∃ s md, dispatched tr = [Effect.startFileSync 10 s md]
  | StartupStrategy.BackingServerSync =>
      ∃ s a md, dispatched tr = [Effect.startTFSLoader 10 s a md md]
  | StartupStrategy.BackingServerDirectLoad =>
      ∃ host basePort models base_paths n, dispatched tr =
        (List.range n).map (fun (w : Nat) =>
          Effect.addModelsConfig (host ++ ":" ++ toString (basePort + (w : Int)))
            models base_paths false)

end StartUvicorn

namespace StartUvicorn

/-! ## Helper lemmas: the direct-load loop -/

/-- The effect of the direct-load call for process index `w`. -/
def tfsCallEffect (host : String) (basePort : Int) (models base_paths : List String)
    (w : Nat) : Effect :=
  Effect.addModelsConfig (host ++ ":" ++ toString (basePort + (w : Int)))
    models base_paths false

theorem tfsLoadLoop_ok (ok : Nat → Bool) (host : String) (basePort : Int)
    (models base_paths : List String) (l : List Nat) (h : ∀ w ∈ l, ok w = true) :
    tfsLoadLoop ok host basePort models base_paths l =
      (l.map (tfsCallEffect host basePort models base_paths), Except.ok ()) := by
  induction l with
  | nil => rfl
  | cons w ws ih =>
      have hw : ok w = true := h w (List.mem_cons_self w ws)
      simp only [tfsLoadLoop, hw, if_pos,
        ih (fun x hx => h x (List.mem_cons_of_mem w hx)), List.map_cons, tfsCallEffect]


theorem tfsLoadLoop_ok_inv (ok : Nat → Bool) (host : String) (basePort : Int)
    (models base_paths : List String) :
    ∀ l : List Nat,
      (tfsLoadLoop ok host basePort models base_paths l).2 = Except.ok () →
      (tfsLoadLoop ok host basePort models base_paths l).1 =
        l.map (tfsCallEffect host basePort models base_paths) := by
  intro l
  induction l with
  | nil => intro _; rfl
  | cons w ws ih =>
      intro h
      simp only [tfsLoadLoop] at h ⊢
      by_cases hw : ok w = true
      · rw [if_pos hw] at h ⊢
        simp only [List.map_cons, tfsCallEffect, List.cons.injEq, true_and]
        exact ih h
      · rw [if_neg hw] at h
        simp at h

theorem tfsLoadLoop_fail (ok : Nat → Bool) (host : String) (basePort : Int)
    (models base_paths : List String) (i : Nat) (l₂ : List Nat) (hi : ok i = false) :
    ∀ l₁ : List Nat, (∀ w ∈ l₁, ok w = true) →
    tfsLoadLoop ok host basePort models base_paths (l₁ ++ i :: l₂) =
      (l₁.map (tfsCallEffect host basePort models base_paths),
        Except.error PyErr.backingServerConfigError) := by
  intro l₁
  induction l₁ with
  | nil => intro _; simp [tfsLoadLoop, hi]
  | cons w ws ih =>
      intro h
      have hw : ok w = true := h w (List.mem_cons_self w ws)
      have ih' := ih (fun x hx => h x (List.mem_cons_of_mem w hx))
      simp [tfsLoadLoop, hw, ih', tfsCallEffect]

theorem tfsLoadLoop_trace_addModels (ok : Nat → Bool) (host : String) (basePort : Int)
    (models base_paths : List String) :
    ∀ l : List Nat, ∀ e ∈ (tfsLoadLoop ok host basePort models base_paths l).1,
      isAddModels e = true := by
  intro l
  induction l with
  | nil => intro e he; simp [tfsLoadLoop] at he
  | cons w ws ih =>
      intro e he
      simp only [tfsLoadLoop] at he
      by_cases hw : ok w = true
      · rw [if_pos hw] at he
        rcases List.mem_cons.mp he with h | h
        · rw [h]; rfl
        · exact ih e h
      · rw [if_neg hw] at he
        simp at he

/-! ## Helper lemmas: `load_tensorflow_serving_models` -/

theorem load_tfs_eq (o : Oracle) (md raw : String) (b n : Int)
    (hmd : o.env "CORTEX_MODEL_DIR" = some md)
    (hraw : o.env "CORTEX_MODELS" = some raw)
    (hb : pyInt ((o.env "CORTEX_TF_BASE_SERVING_PORT").getD "9000") = some b)
    (hn : (if pyTruthy (o.env "CORTEX_MULTIPLE_TF_SERVERS") then
        requireInt o.env "CORTEX_PROCESSES_PER_REPLICA"
      else Except.ok 1) = Except.ok n) :
    load_tensorflow_serving_models o =
      tfsLoadLoop o.tfsCallOk ((o.env "CORTEX_TF_SERVING_HOST").getD "localhost") b
        (parseModels raw) ((parseModels raw).map (fun name => pathJoin md name))
        (List.range n.toNat) := by
  unfold load_tensorflow_serving_models
  simp only [require, hmd, hraw, hb, hn]

theorem load_trace_addModels (o : Oracle) :
    ∀ e ∈ (load_tensorflow_serving_models o).1, isAddModels e = true := by
  intro e
  cases h1 : require o.env "CORTEX_MODEL_DIR" with
  | error _ => intro he; simp [load_tensorflow_serving_models, h1] at he
  | ok md =>
  cases h2 : pyInt ((o.env "CORTEX_TF_BASE_SERVING_PORT").getD "9000") with
  | none => intro he; simp [load_tensorflow_serving_models, h1, h2] at he
  | some b =>
  cases h3 : require o.env "CORTEX_MODELS" with
  | error _ => intro he; simp [load_tensorflow_serving_models, h1, h2, h3] at he
  | ok raw =>
  cases h4 : (if pyTruthy (o.env "CORTEX_MULTIPLE_TF_SERVERS") then
      requireInt o.env "CORTEX_PROCESSES_PER_REPLICA"
    else Except.ok 1) with
  | error _ =>
      intro he; simp [load_tensorflow_serving_models, h1, h2, h3, h4] at he
  | ok n =>
      intro he
      simp only [load_tensorflow_serving_models, h1, h2, h3, h4] at he
      exact tfsLoadLoop_trace_addModels _ _ _ _ _ _ e he

theorem load_ok_shape (o : Oracle)
    (h : (load_tensorflow_serving_models o).2 = Except.ok ()) :
    ∃ host basePort models base_paths k, (load_tensorflow_serving_models o).1 =
      (List.range k).map (tfsCallEffect host basePort models base_paths) := by
  cases h1 : require o.env "CORTEX_MODEL_DIR" with
  | error _ => simp [load_tensorflow_serving_models, h1] at h
  | ok md =>
  cases h2 : pyInt ((o.env "CORTEX_TF_BASE_SERVING_PORT").getD "9000") with
  | none => simp [load_tensorflow_serving_models, h1, h2] at h
  | some b =>
  cases h3 : require o.env "CORTEX_MODELS" with
  | error _ => simp [load_tensorflow_serving_models, h1, h2, h3] at h
  | ok raw =>
  cases h4 : (if pyTruthy (o.env "CORTEX_MULTIPLE_TF_SERVERS") then
      requireInt o.env "CORTEX_PROCESSES_PER_REPLICA"
    else Except.ok 1) with
  | error _ => simp [load_tensorflow_serving_models, h1, h2, h3, h4] at h
  | ok n =>
      simp only [load_tensorflow_serving_models, h1, h2, h3, h4] at h ⊢
      exact ⟨_, _, _, _, n.toNat, tfsLoadLoop_ok_inv _ _ _ _ _ _ h⟩

/-! ## Helper lemmas: the phases of `main` -/

theorem neuronPhase_shape (o : Oracle) :
    ∀ e ∈ neuronPhase o, e = Effect.waitNeuronRtd := by
  intro e he
  unfold neuronPhase at he
  split at he
  · simpa using he
  · simp at he

theorem portTablePhase_flag_false (o : Oracle)
    (h : pyTruthy (o.env "CORTEX_MULTIPLE_TF_SERVERS") = false) :
    portTablePhase o = ([], Except.ok ()) := by
  simp [portTablePhase, h]

theorem portTablePhase_eq (o : Oracle) (b n : Int)
    (hflag : pyTruthy (o.env "CORTEX_MULTIPLE_TF_SERVERS") = true)
    (hb : requireInt o.env "CORTEX_TF_BASE_SERVING_PORT" = Except.ok b)
    (hn : requireInt o.env "CORTEX_PROCESSES_PER_REPLICA" = Except.ok n) :
    portTablePhase o =
      ([Effect.writePortTable "/run/used_ports.json" (buildUsedPorts b n)],
        Except.ok ()) := by
  simp [portTablePhase, hflag, hb, hn]

theorem portTablePhase_port_err (o : Oracle) (e : PyErr)
    (hflag : pyTruthy (o.env "CORTEX_MULTIPLE_TF_SERVERS") = true)
    (hb : requireInt o.env "CORTEX_TF_BASE_SERVING_PORT" = Except.error e) :
    portTablePhase o = ([], Except.error e) := by
  simp [portTablePhase, hflag, hb]

theorem portTablePhase_trace_portWrite (o : Oracle) :
    ∀ e ∈ (portTablePhase o).1, isPortWrite e = true := by
  intro e he
  unfold portTablePhase at he
  split at he
  · split at he
    · simp at he
    · split at he
      · simp at he
      · rcases List.mem_singleton.mp he with h
        rw [h]; rfl
  · simp at he

theorem portTablePhase_ok_inv (o : Oracle)
    (h : (portTablePhase o).2 = Except.ok ())
    (hw : (portTablePhase o).1 ≠ []) :
    pyTruthy (o.env "CORTEX_MULTIPLE_TF_SERVERS") = true ∧
    ∃ b n, requireInt o.env "CORTEX_TF_BASE_SERVING_PORT" = Except.ok b ∧
      requireInt o.env "CORTEX_PROCESSES_PER_REPLICA" = Except.ok n ∧
      (portTablePhase o).1 =
        [Effect.writePortTable "/run/used_ports.json" (buildUsedPorts b n)] := by
  cases hflag : pyTruthy (o.env "CORTEX_MULTIPLE_TF_SERVERS") with
  | false => exact absurd (by simp [portTablePhase, hflag]) hw
  | true =>
      cases hb : requireInt o.env "CORTEX_TF_BASE_SERVING_PORT" with
      | error e => simp [portTablePhase, hflag, hb] at h
      | ok b =>
          cases hn : requireInt o.env "CORTEX_PROCESSES_PER_REPLICA" with
          | error e => simp [portTablePhase, hflag, hb, hn] at h
          | ok n =>
              exact ⟨rfl, b, n, rfl, rfl, by simp [portTablePhase, hflag, hb, hn]⟩

theorem specPhase_ok_inv (o : Oracle) (pt : PredictorType) (mp c : Bool) (md : String)
    (h : specPhase o = Except.ok (pt, mp, c, md)) :
    pt = o.predictorType ∧
    is_model_caching_enabled o.apiSpec = Except.ok c ∧
    require o.env "CORTEX_MODEL_DIR" = Except.ok md ∧
    (∃ p, require o.env "CORTEX_PROVIDER" = Except.ok p) ∧
    (∃ sp, require o.env "CORTEX_API_SPEC" = Except.ok sp) := by
  cases h1 : require o.env "CORTEX_PROVIDER" with
  | error e =>
      simp [specPhase, h1, Bind.bind, Except.bind, Functor.map, Except.map] at h
  | ok p =>
  cases h2 : require o.env "CORTEX_API_SPEC" with
  | error e =>
      simp [specPhase, h1, h2, Bind.bind, Except.bind, Functor.map, Except.map] at h
  | ok sp =>
  cases h3 : is_model_caching_enabled o.apiSpec with
  | error e =>
      simp [specPhase, h1, h2, h3, Bind.bind, Except.bind, Functor.map, Except.map] at h
  | ok cc =>
  cases h4 : require o.env "CORTEX_MODEL_DIR" with
  | error e =>
      simp [specPhase, h1, h2, h3, h4, Bind.bind, Except.bind, Functor.map, Except.map] at h
  | ok md' =>
      simp only [specPhase, h1, h2, h3, h4, Bind.bind, Except.bind, Functor.map,
        Except.map, Pure.pure, Except.pure, Except.ok.injEq, Prod.mk.injEq] at h
      obtain ⟨hpt, -, hc, hmd⟩ := h
      subst hpt
      subst hc
      subst hmd
      exact ⟨rfl, rfl, rfl, ⟨p, rfl⟩, ⟨sp, rfl⟩⟩

theorem specPhase_eq (o : Oracle) (p sp md : String) (c : Bool)
    (h1 : o.env "CORTEX_PROVIDER" = some p)
    (h2 : o.env "CORTEX_API_SPEC" = some sp)
    (h3 : is_model_caching_enabled o.apiSpec = Except.ok c)
    (h4 : o.env "CORTEX_MODEL_DIR" = some md) :
    specPhase o = Except.ok (o.predictorType,
      decide (o.apiSpec.predictor.processes_per_replica > 1), c, md) := by
  simp [specPhase, require, h1, h2, h3, h4, Bind.bind, Except.bind, Functor.map,
    Except.map, pure, Except.pure]

theorem dispatchPhase_caching (o : Oracle) (pt : PredictorType) (md : String) :
    dispatchPhase o pt true md = ([], Except.ok ()) := by
  cases pt <;> simp [dispatchPhase, inTFFamily]

theorem dispatchPhase_fileSync (o : Oracle) (pt : PredictorType) (md : String)
    (hpt : inTFFamily pt = false) :
    dispatchPhase o pt false md =
      ([Effect.makeDirs "/run/cron", Effect.makeDirs "/tmp/cron",
        Effect.startFileSync 10 o.apiSpec md], Except.ok ()) := by
  cases pt <;> simp_all [dispatchPhase, inTFFamily]

theorem dispatchPhase_tf (o : Oracle) (md : String) :
    dispatchPhase o PredictorType.TensorFlow false md =
      ([Effect.makeDirs "/run/cron", Effect.makeDirs "/tmp/cron",
        Effect.startTFSLoader 10 o.apiSpec
          (((o.env "CORTEX_TF_SERVING_HOST").getD "localhost") ++ ":" ++
            ((o.env "CORTEX_TF_BASE_SERVING_PORT").getD "9000")) md md],
        Except.ok ()) := by
  simp [dispatchPhase, inTFFamily]

theorem dispatchPhase_neuron (o : Oracle) (md : String) :
    dispatchPhase o PredictorType.TensorFlowNeuron false md =
      ([Effect.makeDirs "/run/cron", Effect.makeDirs "/tmp/cron"] ++
          (load_tensorflow_serving_models o).1,
        (load_tensorflow_serving_models o).2) := by
  simp [dispatchPhase, inTFFamily]

theorem dispatchPhase_trace_classify (o : Oracle) (pt : PredictorType)
    (c : Bool) (md : String) :
    ∀ e ∈ (dispatchPhase o pt c md).1, isLaunch e = false ∧ isPortWrite e = false := by
  intro e he
  cases c with
  | true =>
      rw [dispatchPhase_caching] at he
      simp at he
  | false =>
      cases hf : inTFFamily pt with
      | false =>
          rw [dispatchPhase_fileSync o pt md hf] at he
          simp only [List.mem_cons, List.not_mem_nil, or_false] at he
          rcases he with h | h | h <;> subst h <;> exact ⟨rfl, rfl⟩
      | true =>
          cases pt with
          | TensorFlow =>
              rw [dispatchPhase_tf] at he
              simp only [List.mem_cons, List.not_mem_nil, or_false] at he
              rcases he with h | h | h <;> subst h <;> exact ⟨rfl, rfl⟩
          | TensorFlowNeuron =>
              rw [dispatchPhase_neuron] at he
              rcases List.mem_append.mp he with h | h
              · simp only [List.mem_cons, List.not_mem_nil, or_false] at h
                rcases h with h | h <;> subst h <;> exact ⟨rfl, rfl⟩
              · have ha := load_trace_addModels o e h
                cases e <;> first | exact ⟨rfl, rfl⟩ | simp_all [isAddModels]
          | Python => simp [inTFFamily] at hf
          | ONNX => simp [inTFFamily] at hf

theorem launchPhase_eq (o : Oracle) (port workers limit backlog : Int)
    (h1 : requireInt o.env "CORTEX_SERVING_PORT" = Except.ok port)
    (h2 : requireInt o.env "CORTEX_PROCESSES_PER_REPLICA" = Except.ok workers)
    (h3 : requireInt o.env "CORTEX_MAX_PROCESS_CONCURRENCY" = Except.ok limit)
    (h4 : requireInt o.env "CORTEX_SO_MAX_CONN" = Except.ok backlog) :
    launchPhase o =
      ([Effect.uvicornRun "0.0.0.0" port workers limit backlog o.logConfig],
        Except.ok ()) := by
  simp [launchPhase, h1, h2, h3, h4]

theorem launchPhase_port_err (o : Oracle) (e : PyErr)
    (h : requireInt o.env "CORTEX_SERVING_PORT" = Except.error e) :
    launchPhase o = ([], Except.error e) := by
  simp [launchPhase, h]

theorem launchPhase_ok_inv (o : Oracle)
    (h : (launchPhase o).2 = Except.ok ()) :
    ∃ port workers limit backlog,
      requireInt o.env "CORTEX_SERVING_PORT" = Except.ok port ∧
      requireInt o.env "CORTEX_PROCESSES_PER_REPLICA" = Except.ok workers ∧
      requireInt o.env "CORTEX_MAX_PROCESS_CONCURRENCY" = Except.ok limit ∧
      requireInt o.env "CORTEX_SO_MAX_CONN" = Except.ok backlog ∧
      (launchPhase o).1 =
        [Effect.uvicornRun "0.0.0.0" port workers limit backlog o.logConfig] := by
  cases h1 : requireInt o.env "CORTEX_SERVING_PORT" with
  | error e => simp [launchPhase, h1] at h
  | ok port =>
  cases h2 : requireInt o.env "CORTEX_PROCESSES_PER_REPLICA" with
  | error e => simp [launchPhase, h1, h2] at h
  | ok workers =>
  cases h3 : requireInt o.env "CORTEX_MAX_PROCESS_CONCURRENCY" with
  | error e => simp [launchPhase, h1, h2, h3] at h
  | ok limit =>
  cases h4 : requireInt o.env "CORTEX_SO_MAX_CONN" with
  | error e => simp [launchPhase, h1, h2, h3, h4] at h
  | ok backlog =>
      exact ⟨port, workers, limit, backlog, rfl, rfl, rfl, rfl,
        by simp [launchPhase, h1, h2, h3, h4]⟩

theorem launchPhase_trace_launch (o : Oracle) :
    ∀ e ∈ (launchPhase o).1, isLaunch e = true := by
  intro e he
  unfold launchPhase at he
  repeat' split at he
  all_goals simp_all [isLaunch]

theorem launchPhase_err_trace (o : Oracle)
    (h : (launchPhase o).2 ≠ Except.ok ()) : (launchPhase o).1 = [] := by
  unfold launchPhase at h ⊢
  repeat' split
  all_goals simp_all

theorem isLaunch_false_of_portWrite (e : Effect) (h : isPortWrite e = true) :
    isLaunch e = false := by
  cases e <;> simp_all [isPortWrite, isLaunch]

theorem isPortWrite_false_of_launch (e : Effect) (h : isLaunch e = true) :
    isPortWrite e = false := by
  cases e <;> simp_all [isPortWrite, isLaunch]

theorem neuronPhase_no_launch (o : Oracle) : (neuronPhase o).any isLaunch = false :=
  List.any_eq_false.mpr (fun e he => by rw [neuronPhase_shape o e he]; simp [isLaunch])

theorem neuronPhase_no_portWrite (o : Oracle) :
    (neuronPhase o).any isPortWrite = false :=
  List.any_eq_false.mpr (fun e he => by rw [neuronPhase_shape o e he]; simp [isPortWrite])

theorem portTablePhase_no_launch (o : Oracle) :
    (portTablePhase o).1.any isLaunch = false :=
  List.any_eq_false.mpr (fun e he => by
    rw [isLaunch_false_of_portWrite e (portTablePhase_trace_portWrite o e he)]
    simp)

theorem dispatchPhase_no_launch (o : Oracle) (pt : PredictorType) (c : Bool)
    (md : String) : (dispatchPhase o pt c md).1.any isLaunch = false :=
  List.any_eq_false.mpr (fun e he => by
    rw [(dispatchPhase_trace_classify o pt c md e he).1]; simp)

theorem dispatchPhase_no_portWrite (o : Oracle) (pt : PredictorType) (c : Bool)
    (md : String) : (dispatchPhase o pt c md).1.any isPortWrite = false :=
  List.any_eq_false.mpr (fun e he => by
    rw [(dispatchPhase_trace_classify o pt c md e he).2]; simp)

theorem launchPhase_no_portWrite (o : Oracle) :
    (launchPhase o).1.any isPortWrite = false :=
  List.any_eq_false.mpr (fun e he => by
    rw [isPortWrite_false_of_launch e (launchPhase_trace_launch o e he)]
    simp)

/-! ## Helper lemmas: `mainRun` decomposition -/

theorem mainRun_ok_inv (o : Oracle) (h : (mainRun o).2 = Except.ok ()) :
    (portTablePhase o).2 = Except.ok () ∧
    ∃ mp c md, specPhase o = Except.ok (o.predictorType, mp, c, md) ∧
      (dispatchPhase o o.predictorType c md).2 = Except.ok () ∧
      (launchPhase o).2 = Except.ok () ∧
      (mainRun o).1 = neuronPhase o ++ (portTablePhase o).1 ++
        (dispatchPhase o o.predictorType c md).1 ++ (launchPhase o).1 := by
  cases hp : portTablePhase o with
  | mk tr1 r1 =>
  cases r1 with
  | error e => simp [mainRun, hp] at h
  | ok u =>
  cases u
  cases hs : specPhase o with
  | error e => simp [mainRun, hp, hs] at h
  | ok q =>
  obtain ⟨pt, mp, c, md⟩ := q
  have hpt := (specPhase_ok_inv o pt mp c md hs).1
  subst hpt
  cases hd : dispatchPhase o o.predictorType c md with
  | mk tr2 r2 =>
  cases r2 with
  | error e => simp [mainRun, hp, hs, hd] at h
  | ok u2 =>
  cases u2
  refine ⟨rfl, mp, c, md, rfl, by rw [hd], ?_, ?_⟩
  · simpa [mainRun, hp, hs, hd] using h
  · simp [mainRun, hp, hs, hd]

theorem mainRun_launch_iff (o : Oracle) :
    (mainRun o).1.any isLaunch = true ↔ (mainRun o).2 = Except.ok () := by
  cases hp : portTablePhase o with
  | mk tr1 r1 =>
  cases r1 with
  | error e =>
      have h1 : tr1.any isLaunch = false := by
        have := portTablePhase_no_launch o; rw [hp] at this; exact this
      simp [mainRun, hp, List.any_append, neuronPhase_no_launch, h1]
  | ok u =>
  cases u
  cases hs : specPhase o with
  | error e =>
      have h1 : tr1.any isLaunch = false := by
        have := portTablePhase_no_launch o; rw [hp] at this; exact this
      simp [mainRun, hp, hs, List.any_append, neuronPhase_no_launch, h1]
  | ok q =>
  obtain ⟨pt, mp, c, md⟩ := q
  cases hd : dispatchPhase o pt c md with
  | mk tr2 r2 =>
  have h1 : tr1.any isLaunch = false := by
    have := portTablePhase_no_launch o; rw [hp] at this; exact this
  have h2 : tr2.any isLaunch = false := by
    have := dispatchPhase_no_launch o pt c md; rw [hd] at this; exact this
  cases r2 with
  | error e => simp [mainRun, hp, hs, hd, List.any_append, neuronPhase_no_launch, h1, h2]
  | ok u2 =>
  cases u2
  cases hl : (launchPhase o).2 with
  | error e =>
      have h3 : (launchPhase o).1 = [] := launchPhase_err_trace o (by simp [hl])
      simp [mainRun, hp, hs, hd, List.any_append, neuronPhase_no_launch, h1, h2, h3, hl]
  | ok u3 =>
  cases u3
  obtain ⟨port, workers, limit, backlog, -, -, -, -, htr⟩ := launchPhase_ok_inv o hl
  simp [mainRun, hp, hs, hd, List.any_append, neuronPhase_no_launch, h1, h2, htr, hl,
    isLaunch]

theorem mainRun_trace_decomp (o : Oracle) :
    ∃ rest, (mainRun o).1 = neuronPhase o ++ (portTablePhase o).1 ++ rest ∧
      rest.any isPortWrite = false := by
  cases hp : portTablePhase o with
  | mk tr1 r1 =>
  cases r1 with
  | error e => exact ⟨[], by simp [mainRun, hp], rfl⟩
  | ok u =>
  cases u
  cases hs : specPhase o with
  | error e => exact ⟨[], by simp [mainRun, hp, hs], rfl⟩
  | ok q =>
  obtain ⟨pt, mp, c, md⟩ := q
  cases hd : dispatchPhase o pt c md with
  | mk tr2 r2 =>
  have h2 : tr2.any isPortWrite = false := by
    have := dispatchPhase_no_portWrite o pt c md; rw [hd] at this; exact this
  cases r2 with
  | error e =>
      exact ⟨tr2, by simp [mainRun, hp, hs, hd], h2⟩
  | ok u2 =>
  cases u2
  exact ⟨tr2 ++ (launchPhase o).1, by simp [mainRun, hp, hs, hd],
    by simp [List.any_append, h2, launchPhase_no_portWrite]⟩

theorem mainRun_portWrite_eq (o : Oracle) :
    (mainRun o).1.any isPortWrite = (portTablePhase o).1.any isPortWrite := by
  obtain ⟨rest, htr, hrest⟩ := mainRun_trace_decomp o
  simp [htr, List.any_append, neuronPhase_no_portWrite, hrest]

/-! ## Helper lemmas: the persisted port table -/

theorem finalPortTable_append (init : Option (List (String × Bool)))
    (a b : List Effect) :
    finalPortTable init (a ++ b) = finalPortTable (finalPortTable init a) b := by
  induction a generalizing init with
  | nil => rfl
  | cons e tr ih =>
      cases e <;> simp [finalPortTable, ih]

theorem finalPortTable_no_write (init : Option (List (String × Bool)))
    (tr : List Effect) (h : tr.any isPortWrite = false) :
    finalPortTable init tr = init := by
  induction tr with
  | nil => rfl
  | cons e tr ih =>
      simp only [List.any_cons, Bool.or_eq_false_iff] at h
      cases e <;> first
        | exact ih h.2
        | simp [isPortWrite] at h

theorem isDispatch_of_addModels (e : Effect) (h : isAddModels e = true) :
    isDispatch e = true := by
  cases e <;> simp_all [isAddModels, isDispatch]

theorem dispatched_neuronPhase (o : Oracle) : dispatched (neuronPhase o) = [] :=
  List.filter_eq_nil_iff.mpr (fun e he => by
    rw [neuronPhase_shape o e he]; simp [isDispatch])

theorem dispatched_portTablePhase (o : Oracle) :
    dispatched (portTablePhase o).1 = [] :=
  List.filter_eq_nil_iff.mpr (fun e he => by
    have := portTablePhase_trace_portWrite o e he
    cases e <;> simp_all [isPortWrite, isDispatch])

theorem dispatched_launchPhase (o : Oracle) : dispatched (launchPhase o).1 = [] :=
  List.filter_eq_nil_iff.mpr (fun e he => by
    have := launchPhase_trace_launch o e he
    cases e <;> simp_all [isLaunch, isDispatch])

theorem dispatched_append (a b : List Effect) :
    dispatched (a ++ b) = dispatched a ++ dispatched b :=
  List.filter_append ..

/-! ## Claim C1 -/

/-- C1: For every `(PredictorKind, CachingMode)` pair, a run that reaches
the runtime launch has realized exactly one startup strategy, the one of
the §4.3 decision table: caching enabled starts no daemon and issues no
direct load, regardless of kind; caching disabled starts a file-sync
daemon (`FileBasedModelsTreeUpdater`) for Python and ONNX, a
backing-server sync daemon (`TFSModelLoader`) for TensorFlow, and for
TensorFlowNeuron performs a one-shot direct load and starts no daemon. -/
theorem C1_startup_strategy_matches_table (o : Oracle) (c : Bool)
    (hc : is_model_caching_enabled o.apiSpec = Except.ok c)
    (h : (mainRun o).2 = Except.ok ()) :
    realizes (mainRun o).1 (classify c o.predictorType) := by
  obtain ⟨hport, mp, c', md, hs, hdisp, hlaunch, htr⟩ := mainRun_ok_inv o h
  have hc' := (specPhase_ok_inv o _ _ _ _ hs).2.1
  rw [hc] at hc'
  injection hc' with hcc
  subst hcc
  have hd : dispatched (mainRun o).1 =
      dispatched (dispatchPhase o o.predictorType c md).1 := by
    rw [htr, dispatched_append, dispatched_append, dispatched_append,
      dispatched_neuronPhase, dispatched_portTablePhase, dispatched_launchPhase]
    simp
  cases c with
  | true =>
      rw [dispatchPhase_caching] at hd
      exact hd.trans rfl
  | false =>
      cases hk : o.predictorType with
      | Python =>
          rw [hk] at hd
          rw [dispatchPhase_fileSync o PredictorType.Python md rfl] at hd
          exact ⟨o.apiSpec, md, by rw [hd]; rfl⟩
      | ONNX =>
          rw [hk] at hd
          rw [dispatchPhase_fileSync o PredictorType.ONNX md rfl] at hd
          exact ⟨o.apiSpec, md, by rw [hd]; rfl⟩
      | TensorFlow =>
          rw [hk] at hd
          rw [dispatchPhase_tf] at hd
          exact ⟨o.apiSpec, _, md, by rw [hd]; rfl⟩
      | TensorFlowNeuron =>
          rw [hk] at hd hdisp
          rw [dispatchPhase_neuron] at hd hdisp
          obtain ⟨host, bp, models, paths, k, hsh⟩ :=
            load_ok_shape o (by simpa using hdisp)
          have hfil : dispatched (load_tensorflow_serving_models o).1 =
              (load_tensorflow_serving_models o).1 :=
            List.filter_eq_self.mpr (fun e he =>
              isDispatch_of_addModels e (load_trace_addModels o e he))
          refine ⟨host, bp, models, paths, k, ?_⟩
          rw [hd]
          show dispatched ([Effect.makeDirs "/run/cron", Effect.makeDirs "/tmp/cron"]
            ++ (load_tensorflow_serving_models o).1) = _
          rw [dispatched_append, hfil, hsh]
          rfl

/-- A concrete environment for the C1 witness: all required variables
present, no multi-server flag, no neuron sidecar. -/
def envW1 : String → Option String := fun k =>
  if k = "CORTEX_MODEL_DIR" then some "/mnt/model"
  else if k = "CORTEX_PROVIDER" then some "aws"
  else if k = "CORTEX_API_SPEC" then some "specs/api.json"
  else if k = "CORTEX_SERVING_PORT" then some "8080"
  else if k = "CORTEX_PROCESSES_PER_REPLICA" then some "4"
  else if k = "CORTEX_MAX_PROCESS_CONCURRENCY" then some "16"
  else if k = "CORTEX_SO_MAX_CONN" then some "100"
  else none

/-- A concrete oracle for the C1 witness: Python predictor, model
caching disabled (both caching fields present but null). -/
def oracleW1 : Oracle :=
  { env := envW1, logConfig := 1,
    apiSpec := { predictor := { models := { cache_size := some none,
                                            disk_cache_size := some none },
                                processes_per_replica := 4 } },
    predictorType := PredictorType.Python, tfsCallOk := fun _ => true }

/-- Witness for C1 at a concrete input: the run succeeds and realizes
the `FileSync` strategy prescribed by the table for (Python, caching
disabled). -/
theorem C1_startup_strategy_matches_table_witness :
    realizes (mainRun oracleW1).1 (classify false oracleW1.predictorType) :=
  C1_startup_strategy_matches_table oracleW1 false rfl rfl

/-! ## Claim C2 -/

theorem isAddModels_false_of_portWrite (e : Effect) (h : isPortWrite e = true) :
    isAddModels e = false := by
  cases e <;> simp_all [isPortWrite, isAddModels]

theorem addModels_filter_neuron (o : Oracle) :
    (neuronPhase o).filter isAddModels = [] :=
  List.filter_eq_nil_iff.mpr (fun e he => by
    rw [neuronPhase_shape o e he]; simp [isAddModels])

theorem addModels_filter_port (o : Oracle) :
    (portTablePhase o).1.filter isAddModels = [] :=
  List.filter_eq_nil_iff.mpr (fun e he => by
    rw [isAddModels_false_of_portWrite e (portTablePhase_trace_portWrite o e he)]
    simp)

theorem addModels_filter_launch (o : Oracle) :
    (launchPhase o).1.filter isAddModels = [] :=
  List.filter_eq_nil_iff.mpr (fun e he => by
    have := launchPhase_trace_launch o e he
    cases e <;> simp_all [isLaunch, isAddModels])

/-- C2: When the predictor kind is TensorFlowNeuron and caching is
disabled, the run issues exactly one direct-load call per process index
in `[0, num_processes)`, to `host:(base_port+index)`, each listing every
model name with its on-disk path and with the replace-models flag false
(so `num_processes = 2`, `base_port = 9000` gives exactly two calls, to
`host:9000` and `host:9001`). -/
theorem C2_direct_load_per_process (o : Oracle) (p sp md raw : String) (b n : Int)
    (h1 : o.env "CORTEX_PROVIDER" = some p)
    (h2 : o.env "CORTEX_API_SPEC" = some sp)
    (h3 : is_model_caching_enabled o.apiSpec = Except.ok false)
    (hmd : o.env "CORTEX_MODEL_DIR" = some md)
    (hk : o.predictorType = PredictorType.TensorFlowNeuron)
    (hport : (portTablePhase o).2 = Except.ok ())
    (hraw : o.env "CORTEX_MODELS" = some raw)
    (hb : pyInt ((o.env "CORTEX_TF_BASE_SERVING_PORT").getD "9000") = some b)
    (hn : (if pyTruthy (o.env "CORTEX_MULTIPLE_TF_SERVERS") then
        requireInt o.env "CORTEX_PROCESSES_PER_REPLICA"
      else Except.ok 1) = Except.ok n)
    (hok : ∀ w, o.tfsCallOk w = true) :
    (mainRun o).1.filter isAddModels =
      (List.range n.toNat).map (fun (w : Nat) =>
        Effect.addModelsConfig
          (((o.env "CORTEX_TF_SERVING_HOST").getD "localhost") ++ ":" ++
            toString (b + (w : Int)))
          (parseModels raw) ((parseModels raw).map (fun name => pathJoin md name))
          false) := by
  have hload : load_tensorflow_serving_models o =
      ((List.range n.toNat).map
        (tfsCallEffect ((o.env "CORTEX_TF_SERVING_HOST").getD "localhost") b
          (parseModels raw) ((parseModels raw).map (fun name => pathJoin md name))),
        Except.ok ()) := by
    rw [load_tfs_eq o md raw b n hmd hraw hb hn]
    exact tfsLoadLoop_ok _ _ _ _ _ _ (fun w _ => hok w)
  have hspec := specPhase_eq o p sp md false h1 h2 h3 hmd
  cases hp : portTablePhase o with
  | mk tr1 r1 =>
  rw [hp] at hport
  cases r1 with
  | error e => exact absurd hport (by simp)
  | ok u =>
  cases u
  have hfil : ((List.range n.toNat).map
      (tfsCallEffect ((o.env "CORTEX_TF_SERVING_HOST").getD "localhost") b
        (parseModels raw)
        ((parseModels raw).map (fun name => pathJoin md name)))).filter isAddModels =
      (List.range n.toNat).map
        (tfsCallEffect ((o.env "CORTEX_TF_SERVING_HOST").getD "localhost") b
          (parseModels raw)
          ((parseModels raw).map (fun name => pathJoin md name))) :=
    List.filter_eq_self.mpr (fun e he => by
      obtain ⟨w, -, rfl⟩ := List.mem_map.mp he; rfl)
  have htr1 : tr1.filter isAddModels = [] := by
    have := addModels_filter_port o; rw [hp] at this; exact this
  simp only [mainRun, hp, hspec, hk, dispatchPhase_neuron, hload, List.filter_append,
    addModels_filter_neuron, addModels_filter_launch, htr1, hfil]
  simp [isAddModels, tfsCallEffect]

/-- A concrete environment for the C2 witness: TensorFlowNeuron with two
backing-server processes at base port 9000. -/
def envW2 : String → Option String := fun k =>
  if k = "CORTEX_MODEL_DIR" then some "/mnt/model"
  else if k = "CORTEX_PROVIDER" then some "aws"
  else if k = "CORTEX_API_SPEC" then some "specs/api.json"
  else if k = "CORTEX_SERVING_PORT" then some "8080"
  else if k = "CORTEX_PROCESSES_PER_REPLICA" then some "2"
  else if k = "CORTEX_MAX_PROCESS_CONCURRENCY" then some "16"
  else if k = "CORTEX_SO_MAX_CONN" then some "100"
  else if k = "CORTEX_MODELS" then some "alpha,beta"
  else if k = "CORTEX_MULTIPLE_TF_SERVERS" then some "1"
  else if k = "CORTEX_TF_BASE_SERVING_PORT" then some "9000"
  else none

/-- A concrete oracle for the C2 witness. -/
def oracleW2 : Oracle :=
  { env := envW2, logConfig := 1,
    apiSpec := { predictor := { models := { cache_size := some none,
                                            disk_cache_size := some none },
                                processes_per_replica := 2 } },
    predictorType := PredictorType.TensorFlowNeuron, tfsCallOk := fun _ => true }

/-- Witness for C2 at a concrete input: `num_processes = 2`,
`base_port = 9000` issue exactly the two calls at ports 9000 and 9001. -/
theorem C2_direct_load_per_process_witness :
    (mainRun oracleW2).1.filter isAddModels =
      (List.range (2 : Int).toNat).map (fun (w : Nat) =>
        Effect.addModelsConfig
          (((oracleW2.env "CORTEX_TF_SERVING_HOST").getD "localhost") ++ ":" ++
            toString ((9000 : Int) + (w : Int)))
          (parseModels "alpha,beta")
          ((parseModels "alpha,beta").map (fun name => pathJoin "/mnt/model" name))
          false) :=
  C2_direct_load_per_process oracleW2 "aws" "specs/api.json" "/mnt/model" "alpha,beta"
    9000 2 rfl rfl rfl rfl rfl rfl rfl rfl rfl (fun _ => rfl)

/-! ## Claim C3 -/

/-- C3: For every `base_port` and `num_processes ≥ 1`, the port-table
block produces a table whose keys are exactly the string forms of
`base_port, …, base_port+num_processes-1` (exactly `num_processes`
entries, no other keys), every value initialized to false, writes it to
the well-known file `/run/used_ports.json`, and the run leaves that file
holding exactly this table whatever its prior content. -/
theorem C3_port_allocation_planner (o : Oracle) (b n : Int) (_hn : 1 ≤ n)
    (hflag : pyTruthy (o.env "CORTEX_MULTIPLE_TF_SERVERS") = true)
    (hb : requireInt o.env "CORTEX_TF_BASE_SERVING_PORT" = Except.ok b)
    (hpn : requireInt o.env "CORTEX_PROCESSES_PER_REPLICA" = Except.ok n) :
    (buildUsedPorts b n).map Prod.fst =
      (List.range n.toNat).map (fun (w : Nat) => toString (b + (w : Int))) ∧
    (buildUsedPorts b n).length = n.toNat ∧
    (∀ kv ∈ buildUsedPorts b n, kv.2 = false) ∧
    (portTablePhase o).1 =
      [Effect.writePortTable "/run/used_ports.json" (buildUsedPorts b n)] ∧
    ∀ init, finalPortTable init (mainRun o).1 = some (buildUsedPorts b n) := by
  have hpt := portTablePhase_eq o b n hflag hb hpn
  refine ⟨?_, ?_, ?_, by rw [hpt], ?_⟩
  · simp [buildUsedPorts, List.map_map, Function.comp]
  · simp [buildUsedPorts]
  · intro kv hkv
    obtain ⟨w, -, rfl⟩ := List.mem_map.mp hkv
    rfl
  · intro init
    obtain ⟨rest, htr, hrest⟩ := mainRun_trace_decomp o
    rw [htr, hpt, finalPortTable_append, finalPortTable_append,
      finalPortTable_no_write init _ (neuronPhase_no_portWrite o),
      finalPortTable_no_write _ rest hrest]
    rfl

/-- A concrete environment for the C3 witness: multi-backing-server mode
with base port 9000 and three processes. -/
def envW3 : String → Option String := fun k =>
  if k = "CORTEX_MULTIPLE_TF_SERVERS" then some "1"
  else if k = "CORTEX_TF_BASE_SERVING_PORT" then some "9000"
  else if k = "CORTEX_PROCESSES_PER_REPLICA" then some "3"
  else none

/-- A concrete oracle for the C3 witness. -/
def oracleW3 : Oracle :=
  { env := envW3, logConfig := 1,
    apiSpec := { predictor := { models := { cache_size := some none,
                                            disk_cache_size := some none },
                                processes_per_replica := 3 } },
    predictorType := PredictorType.TensorFlowNeuron, tfsCallOk := fun _ => true }

/-- Witness for C3 at a concrete input: `base_port = 9000`,
`num_processes = 3` gives keys 9000, 9001, 9002 all mapped to false, and
the run overwrites a non-trivial prior file content with that table. -/
theorem C3_port_allocation_planner_witness :
    buildUsedPorts 9000 3 = [("9000", false), ("9001", false), ("9002", false)] ∧
    finalPortTable (some [("4242", true)]) (mainRun oracleW3).1 =
      some (buildUsedPorts 9000 3) :=
  ⟨rfl, (C3_port_allocation_planner oracleW3 9000 3 (by decide) rfl rfl rfl).2.2.2.2
      (some [("4242", true)])⟩

/-! ## Claim C4 -/

/-- An API spec whose models section lacks the `cache_size` key
entirely (while `disk_cache_size` is present and non-null). -/
def specNoCacheKey : ApiSpec :=
  { predictor := { models := { cache_size := none,
                               disk_cache_size := some (some 5) },
                   processes_per_replica := 1 } }

/-- Counterexample to C4 as stated: when `cache_size` is absent (not
merely null), `is_model_caching_enabled` raises a `KeyError` instead of
disabling caching. -/
theorem C4_absent_field_raises :
    is_model_caching_enabled specNoCacheKey = Except.error PyErr.keyError := rfl

/-- C4 (amended): caching is enabled iff both `cache_size` and
`disk_cache_size` are present and non-null; but a field that the check
consults and finds absent raises a `KeyError` rather than disabling
caching: an absent `cache_size` fails, and an absent `disk_cache_size`
fails whenever `cache_size` is non-null; only a present-but-null
`cache_size` disables caching without consulting `disk_cache_size`. -/
theorem C4_caching_enabled_iff (s : ApiSpec) :
    (is_model_caching_enabled s = Except.ok true ↔
      (∃ a, s.predictor.models.cache_size = some (some a)) ∧
      (∃ d, s.predictor.models.disk_cache_size = some (some d))) ∧
    (s.predictor.models.cache_size = none →
      is_model_caching_enabled s = Except.error PyErr.keyError) ∧
    (∀ a, s.predictor.models.cache_size = some (some a) →
      s.predictor.models.disk_cache_size = none →
      is_model_caching_enabled s = Except.error PyErr.keyError) ∧
    (s.predictor.models.cache_size = some none →
      is_model_caching_enabled s = Except.ok false) := by
  obtain ⟨⟨⟨cs, dcs⟩, ppr⟩⟩ := s
  refine ⟨?_, ?_, ?_, ?_⟩ <;>
    rcases cs with _ | (_ | a) <;> rcases dcs with _ | (_ | d) <;>
      simp [is_model_caching_enabled, dictGet]

/-- An API spec with both caching fields present and non-null. -/
def specBothCache : ApiSpec :=
  { predictor := { models := { cache_size := some (some 3),
                               disk_cache_size := some (some 7) },
                   processes_per_replica := 1 } }

/-- Witness for the amended C4 at a concrete input: both fields present
and non-null means caching is enabled. -/
theorem C4_caching_enabled_iff_witness :
    is_model_caching_enabled specBothCache = Except.ok true :=
  (C4_caching_enabled_iff specBothCache).1.mpr ⟨⟨3, rfl⟩, ⟨7, rfl⟩⟩

/-! ## Claim C5 -/

theorem range_split_at (i k : Nat) :
    List.range (i + (k + 1)) =
      List.range i ++ i :: (List.range k).map (fun j => i + (j + 1)) := by
  rw [List.range_add]
  congr 1
  rw [List.range_succ_eq_map]
  simp [List.map_map, Function.comp]

/-- C5: In the direct-load path, when the call to the `i`-th backing
server fails, the error is surfaced immediately with no retry: the run
ends with `BackingServerConfigError`, the effects of the successful
calls to indices `0..i-1` remain and no call to any index after `i` is
issued, and the runtime launch call is never invoked. -/
theorem C5_direct_load_failure (o : Oracle) (p sp md raw : String) (b n : Int)
    (i : Nat)
    (h1 : o.env "CORTEX_PROVIDER" = some p)
    (h2 : o.env "CORTEX_API_SPEC" = some sp)
    (h3 : is_model_caching_enabled o.apiSpec = Except.ok false)
    (hmd : o.env "CORTEX_MODEL_DIR" = some md)
    (hk : o.predictorType = PredictorType.TensorFlowNeuron)
    (hport : (portTablePhase o).2 = Except.ok ())
    (hraw : o.env "CORTEX_MODELS" = some raw)
    (hb : pyInt ((o.env "CORTEX_TF_BASE_SERVING_PORT").getD "9000") = some b)
    (hn : (if pyTruthy (o.env "CORTEX_MULTIPLE_TF_SERVERS") then
        requireInt o.env "CORTEX_PROCESSES_PER_REPLICA"
      else Except.ok 1) = Except.ok n)
    (hoklt : ∀ w, w < i → o.tfsCallOk w = true)
    (hfail : o.tfsCallOk i = false)
    (hi : i < n.toNat) :
    (mainRun o).2 = Except.error PyErr.backingServerConfigError ∧
    (mainRun o).1.filter isAddModels =
      (List.range i).map (fun (w : Nat) =>
        Effect.addModelsConfig
          (((o.env "CORTEX_TF_SERVING_HOST").getD "localhost") ++ ":" ++
            toString (b + (w : Int)))
          (parseModels raw) ((parseModels raw).map (fun name => pathJoin md name))
          false) ∧
    (mainRun o).1.any isLaunch = false := by
  have hsplit : List.range n.toNat =
      List.range i ++ i :: (List.range (n.toNat - i - 1)).map (fun j => i + (j + 1)) := by
    have h0 : n.toNat = i + (n.toNat - i - 1 + 1) := by omega
    rw [h0, range_split_at]
    have h1 : i + (n.toNat - i - 1 + 1) - i - 1 = n.toNat - i - 1 := by omega
    rw [h1]
  have hload : load_tensorflow_serving_models o =
      ((List.range i).map
        (tfsCallEffect ((o.env "CORTEX_TF_SERVING_HOST").getD "localhost") b
          (parseModels raw) ((parseModels raw).map (fun name => pathJoin md name))),
        Except.error PyErr.backingServerConfigError) := by
    rw [load_tfs_eq o md raw b n hmd hraw hb hn, hsplit]
    exact tfsLoadLoop_fail _ _ _ _ _ i _ hfail (List.range i)
      (fun w hw => hoklt w (List.mem_range.mp hw))
  have hspec := specPhase_eq o p sp md false h1 h2 h3 hmd
  cases hp : portTablePhase o with
  | mk tr1 r1 =>
  rw [hp] at hport
  cases r1 with
  | error e => exact absurd hport (by simp)
  | ok u =>
  cases u
  have hfil : ((List.range i).map
      (tfsCallEffect ((o.env "CORTEX_TF_SERVING_HOST").getD "localhost") b
        (parseModels raw)
        ((parseModels raw).map (fun name => pathJoin md name)))).filter isAddModels =
      (List.range i).map
        (tfsCallEffect ((o.env "CORTEX_TF_SERVING_HOST").getD "localhost") b
          (parseModels raw)
          ((parseModels raw).map (fun name => pathJoin md name))) :=
    List.filter_eq_self.mpr (fun e he => by
      obtain ⟨w, -, rfl⟩ := List.mem_map.mp he; rfl)
  have htr1 : tr1.filter isAddModels = [] := by
    have := addModels_filter_port o; rw [hp] at this; exact this
  have htr1L : tr1.any isLaunch = false := by
    have := portTablePhase_no_launch o; rw [hp] at this; exact this
  have hmapL : ((List.range i).map
      (tfsCallEffect ((o.env "CORTEX_TF_SERVING_HOST").getD "localhost") b
        (parseModels raw)
        ((parseModels raw).map (fun name => pathJoin md name)))).any isLaunch = false :=
    List.any_eq_false.mpr (fun e he => by
      obtain ⟨w, -, rfl⟩ := List.mem_map.mp he; simp [tfsCallEffect, isLaunch])
  refine ⟨?_, ?_, ?_⟩
  · simp [mainRun, hp, hspec, hk, dispatchPhase_neuron, hload]
  · simp only [mainRun, hp, hspec, hk, dispatchPhase_neuron, hload,
      List.filter_append, addModels_filter_neuron, htr1, hfil]
    simp [isAddModels, tfsCallEffect]
  · simp only [mainRun, hp, hspec, hk, dispatchPhase_neuron, hload, List.any_append,
      neuronPhase_no_launch, htr1L, hmapL]
    simp [isLaunch]

/-- A concrete oracle for the C5 witness: same environment as the C2
witness, but the backing-server call fails for every index except 0. -/
def oracleW5 : Oracle :=
  { env := envW2, logConfig := 1,
    apiSpec := { predictor := { models := { cache_size := some none,
                                            disk_cache_size := some none },
                                processes_per_replica := 2 } },
    predictorType := PredictorType.TensorFlowNeuron,
    tfsCallOk := fun w => w == 0 }

/-- Witness for C5 at a concrete input: with two processes and the call
at index 1 failing, the run aborts with the backing-server error, only
the index-0 call's effect remains, and the launch never happens. -/
theorem C5_direct_load_failure_witness :
    (mainRun oracleW5).2 = Except.error PyErr.backingServerConfigError ∧
    (mainRun oracleW5).1.filter isAddModels =
      (List.range 1).map (fun (w : Nat) =>
        Effect.addModelsConfig
          (((oracleW5.env "CORTEX_TF_SERVING_HOST").getD "localhost") ++ ":" ++
            toString ((9000 : Int) + (w : Int)))
          (parseModels "alpha,beta")
          ((parseModels "alpha,beta").map (fun name => pathJoin "/mnt/model" name))
          false) ∧
    (mainRun oracleW5).1.any isLaunch = false :=
  C5_direct_load_failure oracleW5 "aws" "specs/api.json" "/mnt/model" "alpha,beta"
    9000 2 1 rfl rfl rfl rfl rfl rfl rfl rfl rfl
    (fun w hw => by
      have hw0 : w = 0 := by omega
      subst hw0; rfl)
    rfl (by decide)

/-! ## Claim C6 -/

theorem portTablePhase_write_iff (o : Oracle) :
    (portTablePhase o).1.any isPortWrite = true ↔
      (pyTruthy (o.env "CORTEX_MULTIPLE_TF_SERVERS") = true ∧
       (∃ b, requireInt o.env "CORTEX_TF_BASE_SERVING_PORT" = Except.ok b) ∧
       (∃ n, requireInt o.env "CORTEX_PROCESSES_PER_REPLICA" = Except.ok n)) := by
  cases hflag : pyTruthy (o.env "CORTEX_MULTIPLE_TF_SERVERS") with
  | false => simp [portTablePhase_flag_false o hflag, hflag]
  | true =>
      cases hb : requireInt o.env "CORTEX_TF_BASE_SERVING_PORT" with
      | error e => simp [portTablePhase, hflag, hb]
      | ok b =>
          cases hn : requireInt o.env "CORTEX_PROCESSES_PER_REPLICA" with
          | error e => simp [portTablePhase, hflag, hb, hn]
          | ok n => simp [portTablePhase, hflag, hb, hn, isPortWrite]

/-- A concrete oracle refuting C6 as stated: the multi-backing-server
flag is set but the predictor kind is Python, outside the
hardware-accelerated variants. -/
def oracleW6 : Oracle :=
  { env := envW2, logConfig := 1,
    apiSpec := { predictor := { models := { cache_size := some none,
                                            disk_cache_size := some none },
                                processes_per_replica := 2 } },
    predictorType := PredictorType.Python, tfsCallOk := fun _ => true }

/-- Counterexample to C6 as stated: with the multi-backing-server flag
set, the port table is written even though the predictor kind is Python,
a kind outside the hardware-accelerated variants. -/
theorem C6_written_for_python :
    oracleW6.predictorType = PredictorType.Python ∧
    (mainRun oracleW6).1.any isPortWrite = true := ⟨rfl, rfl⟩

/-- C6 (amended): the port table is written iff the multi-backing-server
environment flag is truthy and the base-port and process-count variables
parse as integers; the predictor kind is not consulted at all (the block
runs before the API spec is even retrieved), so changing the kind never
changes whether the table is written. -/
theorem C6_port_table_write_condition (o : Oracle) :
    ((mainRun o).1.any isPortWrite = true ↔
      (pyTruthy (o.env "CORTEX_MULTIPLE_TF_SERVERS") = true ∧
       (∃ b, requireInt o.env "CORTEX_TF_BASE_SERVING_PORT" = Except.ok b) ∧
       (∃ n, requireInt o.env "CORTEX_PROCESSES_PER_REPLICA" = Except.ok n))) ∧
    ∀ k, (mainRun { o with predictorType := k }).1.any isPortWrite =
      (mainRun o).1.any isPortWrite := by
  constructor
  · rw [mainRun_portWrite_eq]
    exact portTablePhase_write_iff o
  · intro k
    rw [mainRun_portWrite_eq, mainRun_portWrite_eq]
    rfl

/-! ## Claim C7 -/

/-- C7: A run that launches the serving runtime always binds to all
interfaces (`0.0.0.0`) and passes the serving port, worker count,
per-process concurrency limit and connection backlog exactly as the
integers parsed from their environment variables, together with the
loaded logging configuration; the launch is the last effect and the only
launch effect of the run. -/
theorem C7_runtime_launcher (o : Oracle) (h : (mainRun o).2 = Except.ok ()) :
    ∃ port workers limit backlog,
      requireInt o.env "CORTEX_SERVING_PORT" = Except.ok port ∧
      requireInt o.env "CORTEX_PROCESSES_PER_REPLICA" = Except.ok workers ∧
      requireInt o.env "CORTEX_MAX_PROCESS_CONCURRENCY" = Except.ok limit ∧
      requireInt o.env "CORTEX_SO_MAX_CONN" = Except.ok backlog ∧
      (mainRun o).1.getLast? =
        some (Effect.uvicornRun "0.0.0.0" port workers limit backlog o.logConfig) ∧
      (mainRun o).1.filter isLaunch =
        [Effect.uvicornRun "0.0.0.0" port workers limit backlog o.logConfig] := by
  obtain ⟨hport, mp, c, md, hs, hdisp, hlaunch, htr⟩ := mainRun_ok_inv o h
  obtain ⟨port, workers, limit, backlog, e1, e2, e3, e4, htr3⟩ :=
    launchPhase_ok_inv o hlaunch
  have f0 : (neuronPhase o).filter isLaunch = [] :=
    List.filter_eq_nil_iff.mpr (List.any_eq_false.mp (neuronPhase_no_launch o))
  have f1 : (portTablePhase o).1.filter isLaunch = [] :=
    List.filter_eq_nil_iff.mpr (List.any_eq_false.mp (portTablePhase_no_launch o))
  have f2 : (dispatchPhase o o.predictorType c md).1.filter isLaunch = [] :=
    List.filter_eq_nil_iff.mpr
      (List.any_eq_false.mp (dispatchPhase_no_launch o o.predictorType c md))
  refine ⟨port, workers, limit, backlog, e1, e2, e3, e4, ?_, ?_⟩
  · rw [htr, htr3]
    exact List.getLast?_concat _
  · rw [htr, htr3, List.filter_append, List.filter_append, List.filter_append,
      f0, f1, f2]
    simp [isLaunch]

/-- Witness for C7 at a concrete input: the launch call carries exactly
the integers parsed from the environment of `oracleW1`. -/
theorem C7_runtime_launcher_witness :
    (mainRun oracleW1).1.getLast? =
      some (Effect.uvicornRun "0.0.0.0" 8080 4 16 100 oracleW1.logConfig) ∧
    (mainRun oracleW1).1.filter isLaunch =
      [Effect.uvicornRun "0.0.0.0" 8080 4 16 100 oracleW1.logConfig] := by
  obtain ⟨p, w, l, bk, e1, e2, e3, e4, g1, g2⟩ := C7_runtime_launcher oracleW1 rfl
  have hp : (Except.ok 8080 : Except PyErr Int) = Except.ok p := by rw [← e1]; rfl
  have hw : (Except.ok 4 : Except PyErr Int) = Except.ok w := by rw [← e2]; rfl
  have hl : (Except.ok 16 : Except PyErr Int) = Except.ok l := by rw [← e3]; rfl
  have hb : (Except.ok 100 : Except PyErr Int) = Except.ok bk := by rw [← e4]; rfl
  injection hp with hp
  injection hw with hw
  injection hl with hl
  injection hb with hb
  subst hp hw hl hb
  exact ⟨g1, g2⟩

/-! ## Claim C8 -/

/-- C8: The serving runtime entry point is invoked exactly on the runs
where every required configuration value resolved (launch happens iff
the run succeeds), and in particular a run whose serving-port variable
is absent or malformed fails before the runtime launch call: the run
ends in an error and no launch effect is ever issued. -/
theorem C8_config_failure_prevents_launch (o : Oracle) :
    ((mainRun o).1.any isLaunch = true ↔ (mainRun o).2 = Except.ok ()) ∧
    (∀ e, requireInt o.env "CORTEX_SERVING_PORT" = Except.error e →
      (∃ e2, (mainRun o).2 = Except.error e2) ∧
      (mainRun o).1.any isLaunch = false) := by
  refine ⟨mainRun_launch_iff o, ?_⟩
  intro e he
  have hnl : (mainRun o).1.any isLaunch = false := by
    by_contra hc
    rw [Bool.not_eq_false] at hc
    have hok := (mainRun_launch_iff o).mp hc
    obtain ⟨-, mp, c, md, -, -, hlaunch, -⟩ := mainRun_ok_inv o hok
    obtain ⟨port, -, -, -, e1, -⟩ := launchPhase_ok_inv o hlaunch
    rw [he] at e1
    cases e1
  refine ⟨?_, hnl⟩
  cases hres : (mainRun o).2 with
  | ok u =>
      cases u
      have := (mainRun_launch_iff o).mpr hres
      rw [hnl] at this
      cases this
  | error e2 => exact ⟨e2, rfl⟩

/-- A concrete environment for the C8 witness: complete except that the
serving-port variable is absent. -/
def envW8 : String → Option String := fun k =>
  if k = "CORTEX_MODEL_DIR" then some "/mnt/model"
  else if k = "CORTEX_PROVIDER" then some "aws"
  else if k = "CORTEX_API_SPEC" then some "specs/api.json"
  else if k = "CORTEX_PROCESSES_PER_REPLICA" then some "4"
  else if k = "CORTEX_MAX_PROCESS_CONCURRENCY" then some "16"
  else if k = "CORTEX_SO_MAX_CONN" then some "100"
  else none

/-- A concrete oracle for the C8 witness. -/
def oracleW8 : Oracle :=
  { env := envW8, logConfig := 1,
    apiSpec := { predictor := { models := { cache_size := some none,
                                            disk_cache_size := some none },
                                processes_per_replica := 4 } },
    predictorType := PredictorType.Python, tfsCallOk := fun _ => true }

/-- Witness for C8 at a concrete input: with `CORTEX_SERVING_PORT`
absent the run errors and never issues the launch effect. -/
theorem C8_config_failure_prevents_launch_witness :
    (∃ e2, (mainRun oracleW8).2 = Except.error e2) ∧
    (mainRun oracleW8).1.any isLaunch = false :=
  (C8_config_failure_prevents_launch oracleW8).2 PyErr.keyError rfl

/-! ## Claim C9 -/

/-- C9: In the direct-load path and the TensorFlow sync-daemon path, an
absent backing-server host or base-port variable falls back to the
defaults `localhost` and `9000` instead of failing; by contrast the
port-table block reads the base port with a required lookup and fails
with a `KeyError` when the variable is absent. -/
theorem C9_defaults_vs_required (o1 o2 o3 : Oracle) (md raw md2 : String) (n : Int)
    (ha1 : o1.env "CORTEX_TF_SERVING_HOST" = none)
    (ha2 : o1.env "CORTEX_TF_BASE_SERVING_PORT" = none)
    (ha3 : o1.env "CORTEX_MODEL_DIR" = some md)
    (ha4 : o1.env "CORTEX_MODELS" = some raw)
    (ha5 : (if pyTruthy (o1.env "CORTEX_MULTIPLE_TF_SERVERS") then
        requireInt o1.env "CORTEX_PROCESSES_PER_REPLICA"
      else Except.ok 1) = Except.ok n)
    (hb1 : o2.env "CORTEX_TF_SERVING_HOST" = none)
    (hb2 : o2.env "CORTEX_TF_BASE_SERVING_PORT" = none)
    (hc1 : pyTruthy (o3.env "CORTEX_MULTIPLE_TF_SERVERS") = true)
    (hc2 : o3.env "CORTEX_TF_BASE_SERVING_PORT" = none) :
    load_tensorflow_serving_models o1 =
      tfsLoadLoop o1.tfsCallOk "localhost" 9000 (parseModels raw)
        ((parseModels raw).map (fun name => pathJoin md name))
        (List.range n.toNat) ∧
    dispatchPhase o2 PredictorType.TensorFlow false md2 =
      ([Effect.makeDirs "/run/cron", Effect.makeDirs "/tmp/cron",
        Effect.startTFSLoader 10 o2.apiSpec "localhost:9000" md2 md2],
        Except.ok ()) ∧
    portTablePhase o3 = ([], Except.error PyErr.keyError) := by
  refine ⟨?_, ?_, ?_⟩
  · have hb9 : pyInt ((o1.env "CORTEX_TF_BASE_SERVING_PORT").getD "9000") =
        some 9000 := by rw [ha2]; rfl
    have hmain := load_tfs_eq o1 md raw 9000 n ha3 ha4 hb9 ha5
    rw [ha1] at hmain
    exact hmain
  · rw [dispatchPhase_tf o2 md2, hb1, hb2]; rfl
  · exact portTablePhase_port_err o3 PyErr.keyError hc1
      (by simp [requireInt, require, hc2])

/-- A minimal spec value reused by the C9 witness oracles. -/
def specW9 : ApiSpec :=
  { predictor := { models := { cache_size := some none,
                               disk_cache_size := some none },
                   processes_per_replica := 1 } }

/-- C9 witness oracle for the direct-load path: model dir and model list
present, host and base port absent. -/
def oracleW9a : Oracle :=
  { env := fun k =>
      if k = "CORTEX_MODEL_DIR" then some "/mnt/model"
      else if k = "CORTEX_MODELS" then some "alpha"
      else none,
    logConfig := 1, apiSpec := specW9,
    predictorType := PredictorType.TensorFlowNeuron, tfsCallOk := fun _ => true }

/-- C9 witness oracle for the TensorFlow sync-daemon path: empty
environment (host and base port absent). -/
def oracleW9b : Oracle :=
  { env := fun _ => none, logConfig := 1, apiSpec := specW9,
    predictorType := PredictorType.TensorFlow, tfsCallOk := fun _ => true }

/-- C9 witness oracle for the port-table path: multi-server flag set,
base port absent. -/
def oracleW9c : Oracle :=
  { env := fun k => if k = "CORTEX_MULTIPLE_TF_SERVERS" then some "1" else none,
    logConfig := 1, apiSpec := specW9,
    predictorType := PredictorType.TensorFlowNeuron, tfsCallOk := fun _ => true }

/-- Witness for C9 at concrete inputs: defaults `localhost:9000` in the
two daemon/direct-load paths, `KeyError` in the port-table path. -/
theorem C9_defaults_vs_required_witness :
    load_tensorflow_serving_models oracleW9a =
      tfsLoadLoop oracleW9a.tfsCallOk "localhost" 9000 (parseModels "alpha")
        ((parseModels "alpha").map (fun name => pathJoin "/mnt/model" name))
        (List.range (1 : Int).toNat) ∧
    dispatchPhase oracleW9b PredictorType.TensorFlow false "/dl" =
      ([Effect.makeDirs "/run/cron", Effect.makeDirs "/tmp/cron",
        Effect.startTFSLoader 10 oracleW9b.apiSpec "localhost:9000" "/dl" "/dl"],
        Except.ok ()) ∧
    portTablePhase oracleW9c = ([], Except.error PyErr.keyError) :=
  C9_defaults_vs_required oracleW9a oracleW9b oracleW9c "/mnt/model" "alpha" "/dl" 1
    rfl rfl rfl rfl rfl rfl rfl rfl rfl

/-! ## Claim C10 -/

/-- C10: In the direct-load path the model set is the models environment
value split on commas with each name stripped of surrounding whitespace,
each model's on-disk path is the model directory joined with its
stripped name, and every one of the `num_processes` calls carries the
identical full list of names and paths, the calls differing only in the
target port. -/
theorem C10_model_set_derivation (o : Oracle) (md raw : String) (b n : Int)
    (hmd : o.env "CORTEX_MODEL_DIR" = some md)
    (hraw : o.env "CORTEX_MODELS" = some raw)
    (hb : pyInt ((o.env "CORTEX_TF_BASE_SERVING_PORT").getD "9000") = some b)
    (hn : (if pyTruthy (o.env "CORTEX_MULTIPLE_TF_SERVERS") then
        requireInt o.env "CORTEX_PROCESSES_PER_REPLICA"
      else Except.ok 1) = Except.ok n)
    (hok : ∀ w, o.tfsCallOk w = true) :
    (load_tensorflow_serving_models o).1.length = n.toNat ∧
    ∀ e ∈ (load_tensorflow_serving_models o).1, ∃ w : Nat, w < n.toNat ∧
      e = Effect.addModelsConfig
        (((o.env "CORTEX_TF_SERVING_HOST").getD "localhost") ++ ":" ++
          toString (b + (w : Int)))
        ((pySplitComma raw).map pyStrip)
        (((pySplitComma raw).map pyStrip).map (fun name => pathJoin md name))
        false := by
  have hload : load_tensorflow_serving_models o =
      ((List.range n.toNat).map
        (tfsCallEffect ((o.env "CORTEX_TF_SERVING_HOST").getD "localhost") b
          (parseModels raw) ((parseModels raw).map (fun name => pathJoin md name))),
        Except.ok ()) := by
    rw [load_tfs_eq o md raw b n hmd hraw hb hn]
    exact tfsLoadLoop_ok _ _ _ _ _ _ (fun w _ => hok w)
  rw [hload]
  constructor
  · simp
  · intro e he
    obtain ⟨w, hw, rfl⟩ := List.mem_map.mp he
    exact ⟨w, List.mem_range.mp hw, rfl⟩

/-- A concrete oracle for the C10 witness: two processes, model list
with surrounding whitespace to strip. -/
def oracleW10 : Oracle :=
  { env := fun k =>
      if k = "CORTEX_MODEL_DIR" then some "/mnt/model"
      else if k = "CORTEX_MODELS" then some "alpha, beta"
      else if k = "CORTEX_MULTIPLE_TF_SERVERS" then some "1"
      else if k = "CORTEX_PROCESSES_PER_REPLICA" then some "2"
      else if k = "CORTEX_TF_BASE_SERVING_PORT" then some "9000"
      else none,
    logConfig := 1, apiSpec := specW9,
    predictorType := PredictorType.TensorFlowNeuron, tfsCallOk := fun _ => true }

/-- Witness for C10 at a concrete input: two calls, and the first call
lists the split-and-stripped model names with their joined paths. -/
theorem C10_model_set_derivation_witness :
    (load_tensorflow_serving_models oracleW10).1.length = (2 : Int).toNat ∧
    (load_tensorflow_serving_models oracleW10).1.head? =
      some (Effect.addModelsConfig "localhost:9000"
        ((pySplitComma "alpha, beta").map pyStrip)
        (((pySplitComma "alpha, beta").map pyStrip).map
          (fun name => pathJoin "/mnt/model" name))
        false) :=
  ⟨(C10_model_set_derivation oracleW10 "/mnt/model" "alpha, beta" 9000 2
      rfl rfl rfl rfl (fun _ => rfl)).1, rfl⟩

/-- Witness for the amended C6 at a concrete input: switching the
predictor kind of `oracleW6` to TensorFlowNeuron does not change whether
the port table is written. -/
theorem C6_port_table_write_condition_witness :
    (mainRun { oracleW6 with
      predictorType := PredictorType.TensorFlowNeuron }).1.any isPortWrite =
      (mainRun oracleW6).1.any isPortWrite :=
  (C6_port_table_write_condition oracleW6).2 PredictorType.TensorFlowNeuron
